import Mathlib

/-!
Shallow embedding of the browser-side controller in `src/app.js` of the
LLM_Research_Assistant repository (a React component).  React state hooks
become fields of `AppState`; each event handler becomes a pure function
from the pre-state (plus the outcome of its `fetch`, supplied as a
parameter) to the post-state, paired with the network request it issues,
if any.  The `useEffect` message timer is embedded as an explicit
timer-pool transition system.
-/

/-- A browser `File` object as the handlers use it: `file.name` and
`file.type` (the declared MIME type). -/
structure FileDesc where
  name : String
  type : String
deriving DecidableEq, Repr

/-- An entry of the `recentPdfs` list: `{ id: Date.now(), name: file.name }`. -/
structure RecentPdf where
  id : Nat
  name : String
deriving DecidableEq, Repr

/-- The `metrics` object returned by the backend:
`{ latency, llm_cpu, llm_mem_mb }`. -/
structure Metrics where
  latency : Int
  llm_cpu : Int
  llm_mem_mb : Int
deriving DecidableEq, Repr

/-- The `message` state: `{ text, type }` with type one of
info / success / error / the empty string. -/
structure Msg where
  text : String
  type : String
deriving DecidableEq, Repr

/-- The React state of the component: one field per `useState` hook that
carries session logic (`query`, `response`, `loading`, `metrics`,
`pdfFile`, `showUploadModal`, `recentPdfs`, `message`). -/
structure AppState where
  query : String
  response : String
  loading : Bool
  metrics : Option Metrics
  pdfFile : Option FileDesc
  showUploadModal : Bool
  recentPdfs : List RecentPdf
  message : Msg
deriving DecidableEq, Repr

/-- A network request issued by a handler: the multipart POST to
`/upload_pdf` or the JSON POST to `/ask_pdf`. -/
inductive Request where
  | uploadPdf (file : FileDesc)
  | askPdf (query : String)
deriving DecidableEq, Repr

/-- Outcome of the `fetch` in `handleFileChange`: HTTP 2xx with the parsed
`data.message`, HTTP failure with the optional server `message`, or a
thrown network error with its `error.message` (a malformed JSON body also
throws and lands in the network-error branch). -/
inductive UploadOutcome where
  | ok (message : String)
  | httpError (message : Option String)
  | networkError (errMessage : String)
deriving DecidableEq, Repr

/-- Outcome of the `fetch` in `handleQuery`. -/
inductive QueryOutcome where
  | ok (resp : String) (metrics : Metrics)
  | httpError (message : Option String)
  | networkError (errMessage : String)
deriving DecidableEq, Repr

/-- Whether a query outcome is the HTTP-failure or network-failure branch. -/
def QueryOutcome.isError : QueryOutcome → Bool
  | .ok _ _ => false
  | .httpError _ => true
  | .networkError _ => true

/-- JavaScript `String.prototype.trim`: strip whitespace from both ends,
modelled on the character list. -/
def jsTrim (s : String) : String :=
  ⟨((s.data.dropWhile Char.isWhitespace).reverse.dropWhile Char.isWhitespace).reverse⟩

/-- JavaScript `a || b` on an optional string: the fallback is used when the
value is absent or empty (the empty string is falsy). -/
def jsOr : Option String → String → String
  | some t, fb => if t = "" then fb else t
  | none, fb => fb

/-- The `setRecentPdfs` updater run on upload success (app.js lines 44-49):
build `{ id, name }`, drop any existing entry with the same name, prepend,
and `slice(0, 5)`. -/
def recordSuccess (id : Nat) (name : String) (prev : List RecentPdf) : List RecentPdf :=
  (⟨id, name⟩ :: prev.filter (fun p => p.name != name)).take 5

/-- The synchronous prefix of `handleFileChange` (app.js lines 23-37), up to
the `await fetch`: validation, the optimistic `setPdfFile(file)`, modal
close, info message, `setLoading(true)`, and the issued upload request.
The invalid-file branch only sets an error message and issues no request. -/
def handleFileChangeStart (file : Option FileDesc) (s : AppState) : AppState × Option Request :=
  match file with
  | some f =>
    if f.type = "application/pdf" then
      ({ s with pdfFile := some f,
                showUploadModal := false,
                message := ⟨"Uploading and processing \"" ++ f.name ++ "\"...", "info"⟩,
                loading := true },
       some (Request.uploadPdf f))
    else
      ({ s with message := ⟨"Please select a valid PDF file.", "error"⟩ }, none)
  | none => ({ s with message := ⟨"Please select a valid PDF file.", "error"⟩ }, none)

/-- The continuation of `handleFileChange` after the upload request settles
(app.js lines 39-62): success sets a success message and records the name
in `recentPdfs`; HTTP failure and network failure set an error message and
clear `pdfFile`; the `finally` block clears `loading` on every branch.
`now` is the `Date.now()` value used as the fresh entry id. -/
def handleFileChangeFinish (f : FileDesc) (now : Nat) (outcome : UploadOutcome)
    (s : AppState) : AppState :=
  let s1 :=
    match outcome with
    | .ok msg =>
        { s with message := ⟨msg, "success"⟩,
                 recentPdfs := recordSuccess now f.name s.recentPdfs }
    | .httpError m =>
        { s with message := ⟨"Error: " ++ jsOr m "Failed to upload PDF.", "error"⟩,
                 pdfFile := none }
    | .networkError e =>
        { s with message := ⟨"Network error: " ++ e ++ ". Is the backend running?", "error"⟩,
                 pdfFile := none }
  { s1 with loading := false }

/-- The whole `handleFileChange` run to completion: the synchronous prefix,
then, when a request was issued, the settlement of that request. -/
def handleFileChange (file : Option FileDesc) (now : Nat) (outcome : UploadOutcome)
    (s : AppState) : AppState × Option Request :=
  let p := handleFileChangeStart file s
  match p.2, file with
  | some req, some f => (handleFileChangeFinish f now outcome p.1, some req)
  | _, _ => p

/-- `handleQuery` run to completion (app.js lines 69-108): the two guard
clauses (`!query.trim()`, then `!pdfFile`) return early with an error
message and no request; otherwise `loading` is set, the previous response,
metrics and message are cleared, the request is issued, the outcome branch
runs, and `finally` clears `loading`. -/
def handleQuery (outcome : QueryOutcome) (s : AppState) : AppState × Option Request :=
  if jsTrim s.query = "" then
    ({ s with message := ⟨"Please enter a question.", "error"⟩ }, none)
  else
    match s.pdfFile with
    | none => ({ s with message := ⟨"Please upload a PDF first.", "error"⟩ }, none)
    | some _ =>
      let s1 := { s with loading := true, response := "", metrics := none,
                         message := ⟨"", ""⟩ }
      let s2 :=
        match outcome with
        | .ok resp m =>
            { s1 with response := resp, metrics := some m,
                      message := ⟨"Response generated successfully!", "success"⟩ }
        | .httpError m =>
            { s1 with message := ⟨"Error: " ++ jsOr m "Failed to get response.", "error"⟩ }
        | .networkError e =>
            { s1 with message := ⟨"Network error: " ++ e ++ ". Is the backend running?", "error"⟩ }
      ({ s2 with loading := false }, some (Request.askPdf s.query))

/-- The recent-PDF button's `onClick` (app.js lines 194-198): set `pdfFile`
to `{ name: pdf.name, type: 'application/pdf' }` and an info message; the
handler contains no `fetch`, so no request is issued. -/
def selectEntry (entry : RecentPdf) (s : AppState) : AppState × Option Request :=
  ({ s with pdfFile := some ⟨entry.name, "application/pdf"⟩,
            message := ⟨"Loaded \"" ++ entry.name ++ "\" from recent files.", "info"⟩ },
   none)

/-- The remove button's `onClick` (app.js line 166): `setPdfFile(null)`. -/
def removePdf (s : AppState) : AppState :=
  { s with pdfFile := none }

/-- `copyToClipboard` (app.js lines 111-126): if `response` is non-empty
(JS truthiness), the response text is handed to the copy command; on
success a success message is set, on a thrown copy failure an error
message.  With an empty response nothing happens.  The second component is
the text passed to the copy attempt, `none` when no copy was attempted;
`copyOk` tells whether `document.execCommand` succeeded. -/
def copyToClipboard (copyOk : Bool) (s : AppState) : AppState × Option String :=
  if s.response ≠ "" then
    if copyOk then
      ({ s with message := ⟨"Response copied to clipboard!", "success"⟩ }, some s.response)
    else
      ({ s with message := ⟨"Failed to copy text.", "error"⟩ }, some s.response)
  else (s, none)

/-- State of the message-clearing `useEffect` (app.js lines 129-136) seen as
a timer system: the current `message`, the pool of live `setTimeout`
timers as (timer id, fire deadline) pairs, the id held by the current
effect's cleanup closure (the one `clearTimeout` will target), and a
fresh-id counter. -/
structure NotifState where
  message : Msg
  pending : List (Nat × Nat)
  owned : Option Nat
  nextId : Nat
deriving DecidableEq, Repr

/-- One `setMessage` followed by the re-run of the effect: React first runs
the previous effect's cleanup (`clearTimeout` on the owned timer), then
the effect body, which schedules a 5000 ms timer exactly when the new
`message.text` is non-empty. -/
def runMessageEffect (now : Nat) (m : Msg) (s : NotifState) : NotifState :=
  let cleared :=
    match s.owned with
    | some i => s.pending.filter (fun t => t.1 != i)
    | none => s.pending
  if m.text = "" then
    { message := m, pending := cleared, owned := none, nextId := s.nextId }
  else
    { message := m, pending := cleared ++ [(s.nextId, now + 5000)],
      owned := some s.nextId, nextId := s.nextId + 1 }

/-- Timer `i` fires: it leaves the pending pool and its callback runs
`setMessage` with the empty message, re-running the effect (whose cleanup
now targets an already-fired timer, a no-op).  Firing a timer that is not
pending does nothing. -/
def fireTimer (i : Nat) (s : NotifState) : NotifState :=
  if s.pending.any (fun t => t.1 = i) then
    runMessageEffect 0 ⟨"", ""⟩ { s with pending := s.pending.filter (fun t => t.1 != i) }
  else s

/-- An event of the notification subsystem: a notification created at
absolute time `now`, or a pending timer firing. -/
inductive NotifEvent where
  | notify (now : Nat) (m : Msg)
  | fire (i : Nat)
deriving DecidableEq, Repr

/-- Step function of the notification subsystem. -/
def notifStep (s : NotifState) (e : NotifEvent) : NotifState :=
  match e with
  | .notify now m => runMessageEffect now m s
  | .fire i => fireTimer i s

/-- Initial notification state: empty message, no timers. -/
def notifInit : NotifState := ⟨⟨"", ""⟩, [], none, 0⟩

/-- Reachability invariant of the timer system: when no effect owns a
timer the pool is empty; when one does, the pool is empty or holds exactly
that timer. -/
def notifInv (s : NotifState) : Prop :=
  match s.owned with
  | none => s.pending = []
  | some i => s.pending = [] ∨ ∃ d, s.pending = [(i, d)]

/-- Concrete fixtures used by witnesses and counterexamples. -/
def fileA : FileDesc := ⟨"report.pdf", "application/pdf"⟩

/-- A txt file, rejected by the upload validation. -/
def fileTxt : FileDesc := ⟨"notes.txt", "text/plain"⟩

/-- A recent-list entry used by witnesses. -/
def entryA : RecentPdf := ⟨1, "notes.pdf"⟩

/-- The component's initial state: all hooks at their `useState` initial
values. -/
def state0 : AppState := ⟨"", "", false, none, none, false, [], ⟨"", ""⟩⟩

/-- A state with an active document and a non-blank query. -/
def stateQ : AppState :=
  { state0 with query := "What is the summary?", pdfFile := some fileA }

/-- A state holding a previous query result, used to show error outcomes
clear rather than preserve it. -/
def stateC4 : AppState :=
  { stateQ with response := "old answer", metrics := some ⟨1, 40, 512⟩ }

/-- A state with whitespace-only query text and no active document. -/
def stateEmptyQ : AppState := { state0 with query := "   " }

/-- A state with a non-blank query but no active document. -/
def stateNoDoc : AppState := { state0 with query := "hi" }

/-- One cache update as a fold step: apply `recordSuccess` with the call's
fresh id and name. -/
def cacheStep (l : List RecentPdf) (c : Nat × String) : List RecentPdf :=
  recordSuccess c.1 c.2 l

/-- A three-entry cache used by witnesses. -/
def cacheB : List RecentPdf := [⟨1, "b"⟩, ⟨2, "a"⟩, ⟨3, "c"⟩]

/-- A notification event used by witnesses. -/
def evHi : NotifEvent := .notify 100 ⟨"hi", "info"⟩

/-- A second message used by witnesses. -/
def msgYo : Msg := ⟨"yo", "info"⟩

theorem recordSuccess_length_le (id : Nat) (n : String) (l : List RecentPdf) :
    (recordSuccess id n l).length ≤ 5 := by
  simp only [recordSuccess, List.length_take]
  exact Nat.min_le_left _ _

theorem recordSuccess_nodup (id : Nat) (n : String) (l : List RecentPdf)
    (h : (l.map RecentPdf.name).Nodup) :
    ((recordSuccess id n l).map RecentPdf.name).Nodup := by
  have hsub : List.Sublist ((recordSuccess id n l).map RecentPdf.name)
      ((RecentPdf.mk id n :: l.filter (fun p => p.name != n)).map RecentPdf.name) :=
    List.Sublist.map _ (List.take_sublist _ _)
  refine List.Nodup.sublist hsub ?_
  simp only [List.map_cons, List.nodup_cons]
  refine ⟨?_, ?_⟩
  · intro hmem
    obtain ⟨p, hp, hpn⟩ := List.mem_map.mp hmem
    have hne : p.name ≠ n := by simpa using (List.mem_filter.mp hp).2
    exact hne hpn
  · exact List.Nodup.sublist (List.Sublist.map _ (List.filter_sublist _)) h

theorem cacheOk_foldl (calls : List (Nat × String)) :
    ∀ l : List RecentPdf, l.length ≤ 5 → (l.map RecentPdf.name).Nodup →
      (calls.foldl cacheStep l).length ≤ 5 ∧
      ((calls.foldl cacheStep l).map RecentPdf.name).Nodup := by
  induction calls with
  | nil => intro l h1 h2; exact ⟨h1, h2⟩
  | cons c rest ih =>
    intro l _ h2
    exact ih (cacheStep l c) (recordSuccess_length_le c.1 c.2 l)
      (recordSuccess_nodup c.1 c.2 l h2)

/-- C1: after every completed `handleFileChange` call on an accepted PDF
file — success, HTTP-failure, or network-failure outcome alike — and after
every completed `handleQuery` call that passed both guard clauses, the
`loading` flag is false: the `finally` block clears it on every path that
set it. -/
theorem upload_query_clears_busy :
    (∀ f now outcome s, f.type = "application/pdf" →
      ((handleFileChange (some f) now outcome s).1).loading = false) ∧
    (∀ outcome s, jsTrim s.query ≠ "" → s.pdfFile ≠ none →
      ((handleQuery outcome s).1).loading = false) := by
  constructor
  · intro f now outcome s hf
    cases outcome <;>
      simp [handleFileChange, handleFileChangeStart, handleFileChangeFinish, hf]
  · intro outcome s hq hp
    cases hpd : s.pdfFile with
    | none => exact absurd hpd hp
    | some f => cases outcome <;> simp [handleQuery, hq, hpd]

theorem upload_query_clears_busy_witness :
    ((handleFileChange (some fileA) 7 (UploadOutcome.ok "indexed") state0).1).loading = false ∧
    ((handleQuery (QueryOutcome.networkError "e") stateQ).1).loading = false :=
  ⟨upload_query_clears_busy.1 fileA 7 (UploadOutcome.ok "indexed") state0 rfl,
   upload_query_clears_busy.2 (QueryOutcome.networkError "e") stateQ (by decide) (by decide)⟩

/-- C2: starting from the empty cache, every sequence of `recordSuccess`
calls leaves the `recentPdfs` list with at most 5 entries and with
pairwise distinct names. -/
theorem recordSuccess_cache_invariant (calls : List (Nat × String)) :
    (calls.foldl cacheStep []).length ≤ 5 ∧
    ((calls.foldl cacheStep []).map RecentPdf.name).Nodup :=
  cacheOk_foldl calls [] (by simp) (by simp)

/-- C3 counterexample: with whitespace-only query text and no active
document, `handleQuery` emits the EmptyQuery message, not the
NoActiveDocument message the claim requires for every text. -/
theorem query_empty_text_counterexample :
    ((handleQuery (QueryOutcome.networkError "e") stateEmptyQ).1).message.text
        = "Please enter a question." ∧
    "Please enter a question." ≠ "Please upload a PDF first." := by
  exact ⟨by decide, by decide⟩

/-- C3 amended: for every text whose trimmed form is non-empty,
`handleQuery` with no active document fails with the NoActiveDocument
error message and issues no request; empty or whitespace-only text instead
fails first with the EmptyQuery error message (also with no request),
because the empty-query guard precedes the document guard. -/
theorem query_precondition_order :
    (∀ outcome s, jsTrim s.query ≠ "" → s.pdfFile = none →
      ((handleQuery outcome s).1).message = ⟨"Please upload a PDF first.", "error"⟩ ∧
      (handleQuery outcome s).2 = none) ∧
    (∀ outcome s, jsTrim s.query = "" →
      ((handleQuery outcome s).1).message = ⟨"Please enter a question.", "error"⟩ ∧
      (handleQuery outcome s).2 = none) := by
  constructor
  · intro outcome s hq hp
    simp [handleQuery, hq, hp]
  · intro outcome s hq
    simp [handleQuery, hq]

theorem query_precondition_order_witness :
    (((handleQuery (QueryOutcome.networkError "e") stateNoDoc).1).message
        = ⟨"Please upload a PDF first.", "error"⟩ ∧
      (handleQuery (QueryOutcome.networkError "e") stateNoDoc).2 = none) ∧
    (((handleQuery (QueryOutcome.networkError "e") stateEmptyQ).1).message
        = ⟨"Please enter a question.", "error"⟩ ∧
      (handleQuery (QueryOutcome.networkError "e") stateEmptyQ).2 = none) :=
  ⟨query_precondition_order.1 (QueryOutcome.networkError "e") stateNoDoc
      (by decide) (by decide),
   query_precondition_order.2 (QueryOutcome.networkError "e") stateEmptyQ (by decide)⟩

/-- C4 counterexample: with a previous answer in place, an HTTP-failure
query outcome leaves the response empty — a value that is neither the
prior answer nor a fully updated result, contradicting the claim that the
Query Result is "fully updated or left at the value it had before the
call" and "never cleared". -/
theorem query_error_clears_result_counterexample :
    stateC4.response = "old answer" ∧
    ((handleQuery (QueryOutcome.httpError (some "boom")) stateC4).1).response = "" ∧
    ((handleQuery (QueryOutcome.httpError (some "boom")) stateC4).1).metrics = none ∧
    "" ≠ "old answer" :=
  ⟨rfl, by decide, by decide, by decide⟩

/-- C4 amended: whenever `handleQuery` terminates with a ServerError or
NetworkError outcome (having passed both guards), the Session State's
document reference is unchanged and the Query Result is cleared — answer
text empty and metrics absent — never half-written; it is not retained at
its prior value, because the controller clears it at the start of the
attempt. -/
theorem query_error_no_partial_state (outcome : QueryOutcome) (s : AppState)
    (herr : outcome.isError = true) (hq : jsTrim s.query ≠ "") (hp : s.pdfFile ≠ none) :
    ((handleQuery outcome s).1).pdfFile = s.pdfFile ∧
    ((handleQuery outcome s).1).response = "" ∧
    ((handleQuery outcome s).1).metrics = none := by
  cases hpd : s.pdfFile with
  | none => exact absurd hpd hp
  | some f =>
    cases outcome with
    | ok r m => simp [QueryOutcome.isError] at herr
    | httpError m => simp [handleQuery, hq, hpd]
    | networkError e => simp [handleQuery, hq, hpd]

theorem query_error_no_partial_state_witness :
    ((handleQuery (QueryOutcome.httpError (some "boom")) stateC4).1).pdfFile
        = stateC4.pdfFile ∧
    ((handleQuery (QueryOutcome.httpError (some "boom")) stateC4).1).response = "" ∧
    ((handleQuery (QueryOutcome.httpError (some "boom")) stateC4).1).metrics = none :=
  query_error_no_partial_state (QueryOutcome.httpError (some "boom")) stateC4
    rfl (by decide) (by decide)

/-- C5 counterexample: the document reference is already set at the
suspension point where the upload request is merely issued — before any
success — and `selectEntry`, which is neither the Upload Controller nor
the remove action, also sets it. -/
theorem docref_mutation_counterexample :
    ((handleFileChangeStart (some fileA) state0).1).pdfFile = some fileA ∧
    (handleFileChangeStart (some fileA) state0).2 = some (Request.uploadPdf fileA) ∧
    ((selectEntry entryA state0).1).pdfFile = some ⟨"notes.pdf", "application/pdf"⟩ :=
  ⟨by decide, by decide, by decide⟩

/-- C5 amended: the document reference is mutated by exactly these
channels — the Upload Controller sets it at acceptance, before the upload
request completes (so it IS set before the request has succeeded), keeps
it on HTTP success and clears it on HTTP or network failure; a rejected
file leaves it unchanged; `selectEntry` sets it to the chosen entry's
descriptor; the remove action clears it unconditionally — while
`handleQuery` and `copyToClipboard` never change it. -/
theorem docref_mutation_channels :
    (∀ f s, f.type = "application/pdf" →
      ((handleFileChangeStart (some f) s).1).pdfFile = some f) ∧
    (∀ f s, f.type ≠ "application/pdf" →
      ((handleFileChangeStart (some f) s).1).pdfFile = s.pdfFile) ∧
    (∀ s, ((handleFileChangeStart none s).1).pdfFile = s.pdfFile) ∧
    (∀ f now m s, (handleFileChangeFinish f now (UploadOutcome.ok m) s).pdfFile
        = s.pdfFile) ∧
    (∀ f now m s, (handleFileChangeFinish f now (UploadOutcome.httpError m) s).pdfFile
        = none) ∧
    (∀ f now e s, (handleFileChangeFinish f now (UploadOutcome.networkError e) s).pdfFile
        = none) ∧
    (∀ e s, ((selectEntry e s).1).pdfFile = some ⟨e.name, "application/pdf"⟩) ∧
    (∀ s, (removePdf s).pdfFile = none) ∧
    (∀ outcome s, ((handleQuery outcome s).1).pdfFile = s.pdfFile) ∧
    (∀ ok s, ((copyToClipboard ok s).1).pdfFile = s.pdfFile) := by
  refine ⟨?_, ?_, ?_, ?_, ?_, ?_, ?_, ?_, ?_, ?_⟩
  · intro f s hf; simp [handleFileChangeStart, hf]
  · intro f s hf; simp [handleFileChangeStart, hf]
  · intro s; simp [handleFileChangeStart]
  · intro f now m s; simp [handleFileChangeFinish]
  · intro f now m s; simp [handleFileChangeFinish]
  · intro f now e s; simp [handleFileChangeFinish]
  · intro e s; simp [selectEntry]
  · intro s; simp [removePdf]
  · intro outcome s
    by_cases hq : jsTrim s.query = ""
    · simp [handleQuery, hq]
    · cases hpd : s.pdfFile with
      | none => simp [handleQuery, hq, hpd]
      | some f => cases outcome <;> simp [handleQuery, hq, hpd]
  · intro ok s
    by_cases hr : s.response = "" <;> cases ok <;> simp [copyToClipboard, hr]

theorem docref_mutation_channels_witness :
    ((handleFileChangeStart (some fileA) state0).1).pdfFile = some fileA ∧
    ((handleFileChangeStart (some fileTxt) state0).1).pdfFile = state0.pdfFile :=
  ⟨docref_mutation_channels.1 fileA state0 rfl,
   docref_mutation_channels.2.1 fileTxt state0 (by decide)⟩

theorem notifInv_cleared (s : NotifState) (h : notifInv s) :
    (match s.owned with
     | some i => s.pending.filter (fun t => t.1 != i)
     | none => s.pending) = [] := by
  cases ho : s.owned with
  | none =>
    simp only [notifInv, ho] at h
    simp [h]
  | some i =>
    simp only [notifInv, ho] at h
    rcases h with h | ⟨d, h⟩ <;> simp [h]

theorem runMessageEffect_pending (now : Nat) (m : Msg) (s : NotifState) (h : notifInv s) :
    notifInv (runMessageEffect now m s) ∧
    (m.text = "" → (runMessageEffect now m s).pending = []) ∧
    (m.text ≠ "" → (runMessageEffect now m s).pending = [(s.nextId, now + 5000)]) := by
  have hcl := notifInv_cleared s h
  by_cases hm : m.text = ""
  · refine ⟨?_, fun _ => ?_, fun hne => absurd hm hne⟩
    · simp [runMessageEffect, hm, hcl, notifInv]
    · simp [runMessageEffect, hm, hcl]
  · refine ⟨?_, fun heq => absurd heq hm, fun _ => ?_⟩
    · simp [runMessageEffect, hm, hcl, notifInv]
    · simp [runMessageEffect, hm, hcl]

theorem notifInv_fireTimer (i : Nat) (s : NotifState) (h : notifInv s) :
    notifInv (fireTimer i s) := by
  unfold fireTimer
  split
  · have h' : notifInv { s with pending := s.pending.filter (fun t => t.1 != i) } := by
      cases ho : s.owned with
      | none =>
        simp only [notifInv, ho] at h ⊢
        simp [h]
      | some j =>
        simp only [notifInv, ho] at h ⊢
        rcases h with h | ⟨d, h⟩
        · simp [h]
        · by_cases hji : j = i
          · simp [h, hji]
          · right; exact ⟨d, by simp [h, hji]⟩
    exact (runMessageEffect_pending 0 ⟨"", ""⟩ _ h').1
  · exact h

theorem notifInv_step (s : NotifState) (e : NotifEvent) (h : notifInv s) :
    notifInv (notifStep s e) := by
  cases e with
  | notify now m => exact (runMessageEffect_pending now m s h).1
  | fire i => exact notifInv_fireTimer i s h

theorem notifInv_foldl (events : List NotifEvent) :
    ∀ s, notifInv s → notifInv (events.foldl notifStep s) := by
  induction events with
  | nil => intro s h; exact h
  | cons e rest ih => intro s h; exact ih (notifStep s e) (notifInv_step s e h)

theorem notifInv_pending_len (s : NotifState) (h : notifInv s) : s.pending.length ≤ 1 := by
  cases ho : s.owned with
  | none => simp only [notifInv, ho] at h; simp [h]
  | some i =>
    simp only [notifInv, ho] at h
    rcases h with h | ⟨d, h⟩ <;> simp [h]

/-- C6: in every state reachable from the initial notification state, at
most one dismissal timer is pending; creating a notification with
non-empty text from a reachable state leaves exactly one pending timer,
the new one, whose deadline is its creation time plus 5000 ms (the old
timer having been cancelled by the effect cleanup); and a pending timer
that fires clears the message. -/
theorem notification_timer_discipline :
    (∀ events : List NotifEvent,
      ((events.foldl notifStep notifInit).pending).length ≤ 1) ∧
    (∀ events : List NotifEvent, ∀ now : Nat, ∀ m : Msg, m.text ≠ "" →
      (runMessageEffect now m (events.foldl notifStep notifInit)).pending
        = [((events.foldl notifStep notifInit).nextId, now + 5000)]) ∧
    (∀ i : Nat, ∀ s : NotifState, s.pending.any (fun t => t.1 = i) = true →
      (fireTimer i s).message = ⟨"", ""⟩) := by
  have hinit : notifInv notifInit := by simp [notifInv, notifInit]
  refine ⟨?_, ?_, ?_⟩
  · intro events
    exact notifInv_pending_len _ (notifInv_foldl events notifInit hinit)
  · intro events now m hm
    exact (runMessageEffect_pending now m _ (notifInv_foldl events notifInit hinit)).2.2 hm
  · intro i s hany
    simp only [fireTimer, hany, if_true]
    simp [runMessageEffect]

theorem notification_timer_discipline_witness :
    (([evHi].foldl notifStep notifInit).pending).length ≤ 1 ∧
    (runMessageEffect 200 msgYo ([evHi].foldl notifStep notifInit)).pending
      = [(([evHi].foldl notifStep notifInit).nextId, 200 + 5000)] ∧
    (fireTimer 0 (runMessageEffect 100 ⟨"hi", "info"⟩ notifInit)).message = ⟨"", ""⟩ :=
  ⟨notification_timer_discipline.1 [evHi],
   notification_timer_discipline.2.1 [evHi] 200 msgYo (by decide),
   notification_timer_discipline.2.2 0 (runMessageEffect 100 ⟨"hi", "info"⟩ notifInit)
     (by decide)⟩

theorem filter_ne_length (n : String) :
    ∀ l : List RecentPdf, (l.map RecentPdf.name).Nodup → n ∈ l.map RecentPdf.name →
      (l.filter (fun p => p.name != n)).length + 1 = l.length := by
  intro l
  induction l with
  | nil => intro _ hmem; simp at hmem
  | cons p rest ih =>
    intro hnd hmem
    simp only [List.map_cons, List.nodup_cons] at hnd
    by_cases hp : p.name = n
    · have hrest : rest.filter (fun q => q.name != n) = rest := by
        refine List.filter_eq_self.mpr ?_
        intro q hq
        have hqmem : q.name ∈ rest.map RecentPdf.name := List.mem_map_of_mem _ hq
        have : q.name ≠ n := by
          intro hqn
          exact hnd.1 (by rw [hp]; rw [hqn] at hqmem; exact hqmem)
        simpa using this
      simp [List.filter_cons, hp, hrest]
    · have hmem' : n ∈ rest.map RecentPdf.name := by
        simp only [List.map_cons, List.mem_cons] at hmem
        rcases hmem with h | h
        · exact absurd h.symm hp
        · exact h
      have := ih hnd.2 hmem'
      simp only [List.filter_cons]
      have hb : (p.name != n) = true := by simpa using hp
      rw [hb]
      simp only [if_true, List.length_cons]
      omega

/-- C7: on a cache whose names are distinct, with at most 5 entries and an
entry already named `n`, `recordSuccess` with name `n` places `n` at the
front and leaves the number of entries unchanged. -/
theorem recordSuccess_promotes_existing (id : Nat) (n : String) (prev : List RecentPdf)
    (hmem : n ∈ prev.map RecentPdf.name)
    (hnd : (prev.map RecentPdf.name).Nodup)
    (hlen : prev.length ≤ 5) :
    (recordSuccess id n prev).length = prev.length ∧
    (recordSuccess id n prev).head? = some ⟨id, n⟩ := by
  have hflt := filter_ne_length n prev hnd hmem
  have hle : (RecentPdf.mk id n :: prev.filter (fun p => p.name != n)).length ≤ 5 := by
    simp only [List.length_cons]
    omega
  have heq : recordSuccess id n prev
      = RecentPdf.mk id n :: prev.filter (fun p => p.name != n) := by
    unfold recordSuccess
    exact List.take_of_length_le hle
  rw [heq]
  exact ⟨by simp only [List.length_cons]; omega, rfl⟩

theorem recordSuccess_promotes_existing_witness :
    (recordSuccess 9 "a" cacheB).length = cacheB.length ∧
    (recordSuccess 9 "a" cacheB).head? = some ⟨9, "a"⟩ :=
  recordSuccess_promotes_existing 9 "a" cacheB (by decide) (by decide) (by decide)

/-- C8: `selectEntry` sets the document reference to the entry's name with
the PDF MIME type, issues no request, and leaves the recent list — entries
and ordering — untouched; in particular, after a successful upload,
selecting any recent entry replaces the document reference while the cache
stays exactly as the upload left it. -/
theorem selectEntry_frame :
    (∀ e s, ((selectEntry e s).1).pdfFile = some ⟨e.name, "application/pdf"⟩ ∧
      (selectEntry e s).2 = none ∧
      ((selectEntry e s).1).recentPdfs = s.recentPdfs) ∧
    (∀ f now m s e, f.type = "application/pdf" →
      ((selectEntry e (handleFileChange (some f) now (UploadOutcome.ok m) s).1).1).pdfFile
        = some ⟨e.name, "application/pdf"⟩ ∧
      ((selectEntry e (handleFileChange (some f) now (UploadOutcome.ok m) s).1).1).recentPdfs
        = ((handleFileChange (some f) now (UploadOutcome.ok m) s).1).recentPdfs) := by
  refine ⟨?_, ?_⟩
  · intro e s
    exact ⟨rfl, rfl, rfl⟩
  · intro f now m s e _
    exact ⟨rfl, rfl⟩

theorem selectEntry_frame_witness :
    ((selectEntry entryA (handleFileChange (some fileA) 7 (UploadOutcome.ok "indexed")
        state0).1).1).pdfFile = some ⟨"notes.pdf", "application/pdf"⟩ ∧
    ((selectEntry entryA (handleFileChange (some fileA) 7 (UploadOutcome.ok "indexed")
        state0).1).1).recentPdfs
      = ((handleFileChange (some fileA) 7 (UploadOutcome.ok "indexed") state0).1).recentPdfs :=
  selectEntry_frame.2 fileA 7 "indexed" state0 entryA rfl

/-- C9: with a non-empty response, `copyToClipboard` hands exactly the
response text to the copy command, sets a success message when the copy
succeeds and an error message when the copy command throws, and in either
outcome leaves the document reference, the loading flag, the response text
and the metrics unchanged. -/
theorem copy_response_frame (ok : Bool) (s : AppState) (h : s.response ≠ "") :
    (copyToClipboard ok s).2 = some s.response ∧
    ((copyToClipboard ok s).1).message =
      (if ok then (⟨"Response copied to clipboard!", "success"⟩ : Msg)
       else ⟨"Failed to copy text.", "error"⟩) ∧
    ((copyToClipboard ok s).1).pdfFile = s.pdfFile ∧
    ((copyToClipboard ok s).1).loading = s.loading ∧
    ((copyToClipboard ok s).1).response = s.response ∧
    ((copyToClipboard ok s).1).metrics = s.metrics := by
  cases ok <;> simp [copyToClipboard, h]

theorem copy_response_frame_witness :
    (copyToClipboard true stateC4).2 = some stateC4.response ∧
    ((copyToClipboard true stateC4).1).message =
      (if true then (⟨"Response copied to clipboard!", "success"⟩ : Msg)
       else ⟨"Failed to copy text.", "error"⟩) ∧
    ((copyToClipboard true stateC4).1).pdfFile = stateC4.pdfFile ∧
    ((copyToClipboard true stateC4).1).loading = stateC4.loading ∧
    ((copyToClipboard true stateC4).1).response = stateC4.response ∧
    ((copyToClipboard true stateC4).1).metrics = stateC4.metrics :=
  copy_response_frame true stateC4 (by decide)

/-- C10: with an empty response, `copyToClipboard` is a complete no-op:
the state — message included — is unchanged and no copy is attempted. -/
theorem copy_noop_when_empty (ok : Bool) (s : AppState) (h : s.response = "") :
    copyToClipboard ok s = (s, none) := by
  simp [copyToClipboard, h]

theorem copy_noop_when_empty_witness :
    copyToClipboard true state0 = (state0, none) :=
  copy_noop_when_empty true state0 rfl
